import Mathlib

/-!
# VerticalTabs: the WebExtension settings bridge

A shallow embedding of `src/webextension/main.js`.

The script is event driven.  Every call of `browser.storage.local.get` or
`browser.storage.local.set` hands a request to the browser and returns at once;
the browser serves the requests one at a time, in the order in which they were
issued, and runs the `.then` callback of a read when it serves it.  The
embedding keeps the requests that are still waiting in `State.pending`, and
`step` serves the oldest one.  `browser.runtime.sendMessage` appends to
`State.sent`, `console.log` appends to `State.console`.

What the browser decides is an entry point of its own and is never run by
`step`: the reply to a sent message (`sendMessage_then`), the storage change
notification (`storage_onChanged`) and the timer (`startup`).

Storage reads and writes succeed: the promise of a read is never rejected and
the `error` branch of `save_setting` is not reached.  The `.catch` of
`get_setting` is reached by the one exception its callback can throw, the call
of `results.hasOwnProperty` when the result has an own property of that name.
The objects the script builds and the results of a read are plain objects, which
inherit from `Object.prototype`: a read of a property goes through the prototype
(`readProperty`) and an assignment to `__proto__` reaches the setter of the
prototype (`assignProperty`).  The storage itself is a map from keys to values
and keeps a value as it is handed over; what a browser does with `undefined`
differs, and the statements about a setting of the table take a value that is
not `undefined`.
-/

namespace VerticalTabs

/-! ## JavaScript values -/

/-- A JavaScript value as it occurs in a setting or in a message: `undefined`,
`null`, a boolean, an integral number, a string, an array, a plain data object;
and the two values the engine itself supplies. -/
inductive Value where
  | undefined : Value
  | null : Value
  | bool (b : Bool) : Value
  | num (n : Int) : Value
  | str (s : String) : Value
  | arr (items : List Value) : Value
  | obj (fields : List (String × Value)) : Value
  /-- The value of the property `key` of `Object.prototype`: a function, and for
  `__proto__` the prototype itself. -/
  | inherited (key : String) : Value
  /-- The `TypeError` thrown when something that is not a function is called. -/
  | typeError : Value

/-- A plain object: its own properties in insertion order. -/
abbrev Obj := List (String × Value)

/-- Whether `k` is an own property of `o`: what `o.hasOwnProperty(k)` returns
when `o` inherits the method. -/
def hasOwnProperty : Obj → String → Bool
  | [], _ => false
  | (k', _) :: rest, k => if k' = k then true else hasOwnProperty rest k

/-- The value of the own property `k` of `o`, and `undefined` when `o` has
none. -/
def getProp : Obj → String → Value
  | [], _ => Value.undefined
  | (k', v) :: rest, k => if k' = k then v else getProp rest k

/-- The object `o` with the own property `k` set to `v`. -/
def setProp : Obj → String → Value → Obj
  | [], k, v => [(k, v)]
  | (k', v') :: rest, k, v =>
      if k' = k then (k', v) :: rest else (k', v') :: setProp rest k v

/-- The names of the properties of `Object.prototype`. -/
def objectPrototypeKeys : List String :=
  ["constructor", "hasOwnProperty", "isPrototypeOf", "propertyIsEnumerable",
    "toLocaleString", "toString", "valueOf", "__proto__", "__defineGetter__",
    "__defineSetter__", "__lookupGetter__", "__lookupSetter__"]

/-- The read `o[k]` on a plain object: the own property, or else what the object
inherits from `Object.prototype`, or else `undefined`. -/
def readProperty (o : Obj) (k : String) : Value :=
  if hasOwnProperty o k then getProp o k
  else if k ∈ objectPrototypeKeys then Value.inherited k
  else Value.undefined

/-- The assignment `o[k] = v` on a plain object.  When `k` is `__proto__` and `o`
has no own property of that name, the assignment reaches the setter of
`Object.prototype`, which gives `o` no own property. -/
def assignProperty (o : Obj) (k : String) (v : Value) : Obj :=
  if k = "__proto__" ∧ hasOwnProperty o k = false then o else setProp o k v

/-- The list `Object.keys(o)`. -/
def Object.keys (o : Obj) : List String := o.map Prod.fst

/-! ### `value == true`

The comparison converts both sides to numbers; `true` becomes `1`, and an array
is first converted to the string `join` gives. -/

/-- The characters of `StrWhiteSpaceChar`. -/
def isStrWhiteSpaceChar (c : Char) : Bool :=
  c.toNat ∈ [0x9, 0xA, 0xB, 0xC, 0xD, 0x20, 0xA0, 0x1680, 0x2028, 0x2029, 0x202F,
    0x205F, 0x3000, 0xFEFF] || (0x2000 ≤ c.toNat && c.toNat ≤ 0x200A)

/-- The digit value of `c` in base `b`, when `c` is a digit of that base. -/
def digitValue (b : Nat) (c : Char) : Option Nat :=
  let d : Option Nat :=
    if '0' ≤ c ∧ c ≤ '9' then some (c.toNat - '0'.toNat)
    else if 'a' ≤ c ∧ c ≤ 'f' then some (c.toNat - 'a'.toNat + 10)
    else if 'A' ≤ c ∧ c ≤ 'F' then some (c.toNat - 'A'.toNat + 10)
    else none
  d.bind fun n => if n < b then some n else none

/-- The number written by a non-empty run of digits of base `b`. -/
def digitsValue (b : Nat) (cs : List Char) : Option Nat :=
  if cs.isEmpty then none
  else cs.foldl (fun acc c => acc.bind fun n => (digitValue b c).map fun d => n * b + d) (some 0)

/-- Whether the mathematical value `m * 10 ^ e` is converted to the number `1`:
it is `1`, or it lies so close to `1` that the nearest double is `1`
(between `1 - 2^-54` and `1 + 2^-53`, both ends included by round-half-even). -/
def roundsToOne (m : Nat) (e : Int) : Bool :=
  match e with
  | Int.ofNat k => m * 10 ^ k == 1
  | Int.negSucc k =>
      (2 ^ 54 - 1) * 10 ^ (k + 1) ≤ m * 2 ^ 54 && m * 2 ^ 53 ≤ (2 ^ 53 + 1) * 10 ^ (k + 1)

/-- Whether `StrUnsignedDecimalLiteral` `cs` denotes the number `1`. -/
def unsignedDecimalIsOne (cs : List Char) : Bool :=
  let mant := cs.takeWhile fun c => c != 'e' && c != 'E'
  let expo := (cs.dropWhile fun c => c != 'e' && c != 'E').drop 1
  let hasExp := mant.length < cs.length
  let intPart := mant.takeWhile fun c => c != '.'
  let fracPart := (mant.dropWhile fun c => c != '.').drop 1
  let hasDot := intPart.length < mant.length
  let e : Option Int :=
    if !hasExp then some 0
    else match expo with
      | '+' :: ds => (digitsValue 10 ds).map Int.ofNat
      | '-' :: ds => (digitsValue 10 ds).map fun n => - Int.ofNat n
      | ds => (digitsValue 10 ds).map Int.ofNat
  let m : Option Nat :=
    if intPart.isEmpty && fracPart.isEmpty then none
    else if intPart.isEmpty && !hasDot then none
    else if (intPart ++ fracPart).all fun c => (digitValue 10 c).isSome then
      digitsValue 10 ('0' :: (intPart ++ fracPart))
    else none
  match m, e with
  | some m, some e => roundsToOne m (e - Int.ofNat fracPart.length)
  | _, _ => false

/-- Whether `StringToNumber(s)` is the number `1`. -/
def stringToNumberIsOne (s : String) : Bool :=
  let cs := ((s.toList.dropWhile isStrWhiteSpaceChar).reverse.dropWhile
    isStrWhiteSpaceChar).reverse
  match cs with
  | '0' :: 'x' :: ds | '0' :: 'X' :: ds => digitsValue 16 ds == some 1
  | '0' :: 'o' :: ds | '0' :: 'O' :: ds => digitsValue 8 ds == some 1
  | '0' :: 'b' :: ds | '0' :: 'B' :: ds => digitsValue 2 ds == some 1
  | '+' :: ds => unsignedDecimalIsOne ds
  | ds => unsignedDecimalIsOne ds

mutual
/-- The string an element contributes to `Array.prototype.join`: nothing for
`undefined` and `null`, else the element converted to a string.  A number is
written with its digits (from `10^21` on the engine writes an exponent, which
denotes the same number); a plain object gives `[object Object]` or, when its own
`toString` and `valueOf` are no functions, makes the conversion throw, and
neither denotes a number; for a function the text of the function stands, of
which it matters only that it denotes no number. -/
def joinPart : Value → String
  | Value.undefined => ""
  | Value.null => ""
  | Value.bool b => if b then "true" else "false"
  | Value.num n => toString n
  | Value.str s => s
  | Value.arr items => joinAll items
  | Value.obj _ => "[object Object]"
  | Value.inherited key => if key = "__proto__" then "[object Object]" else "function"
  | Value.typeError => "TypeError"
/-- The string `items.join(",")`, which is what an array converts to. -/
def joinAll : List Value → String
  | [] => ""
  | [x] => joinPart x
  | x :: y :: rest => joinPart x ++ "," ++ joinAll (y :: rest)
end

/-- The comparison `value == true`, with `false` also where the conversion of
the value throws. -/
def looseEqTrue : Value → Bool
  | Value.undefined => false
  | Value.null => false
  | Value.bool b => b
  | Value.num n => n == 1
  | Value.str s => stringToNumberIsOne s
  | Value.arr items => stringToNumberIsOne (joinAll items)
  | Value.obj _ => false
  | Value.inherited _ => false
  | Value.typeError => false

/-! ## Messages, requests and the state of the script -/

/-- A message on the runtime bus: `type`, and the `name` and `value` fields
(`none` and `undefined` when the object has no such field). -/
structure Message where
  type : String
  name : Option String := none
  value : Value := Value.undefined

/-- The property key a message's `name` is converted to when it indexes an
object. -/
def Message.key (message : Message) : String := message.name.getD "undefined"

/-- What is attached with `.then` to the promise `get_setting` returns. -/
inductive Then where
  /-- A caller outside the script, whose result is recorded. -/
  | caller : Then
  /-- The callback of `debug_log(output)`. -/
  | debug_log (output : Value) : Then
  /-- The callback of `sdk_send_changed_setting(settingName)`. -/
  | changed (settingName : String) : Then

/-- A request to `browser.storage.local` that has been issued and not yet
served. -/
inductive Request where
  /-- The write `set(settingsObject)` of `save_setting`. -/
  | set (settingsObject : Obj) : Request
  /-- The read `get(name)` of `get_setting`, with what waits for its promise. -/
  | get (name : String) (k : Then) : Request
  /-- The read `get()` of `sdk_send_all_settings`. -/
  | getAll : Request

/-- The state of the background script and of what it talks to. -/
structure State where
  /-- The content of `browser.storage.local`. -/
  store : Obj
  /-- The storage requests issued and not yet served, oldest first. -/
  pending : List Request := []
  /-- The messages passed to `browser.runtime.sendMessage`, oldest first. -/
  sent : List Message := []
  /-- The arguments of `console.log`, oldest first. -/
  console : List Value := []
  /-- The values the promises of outside callers of `get_setting` resolved to. -/
  fulfilled : List (String × Value) := []
  /-- Whether `sdk_send_all_settings` is registered on `storage.onChanged`. -/
  listening : Bool := false
  /-- The number of storage reads served. -/
  reads : Nat := 0
  /-- The number of storage writes served. -/
  writes : Nat := 0

/-- The script at rest over a given storage content. -/
def idle (store : Obj) (listening : Bool) : State :=
  { store := store, listening := listening }

/-! ## The script -/

/-- The table `defaultSettings`. -/
def defaultSettings : Obj :=
  [ ("right", Value.bool false),
    ("hideInFullscreen", Value.bool true),
    ("compact", Value.bool false),
    ("theme", Value.str "dark"),
    ("tabtoolbarPosition", Value.str "top"),
    ("toggleDisplayHotkey", Value.str "control-alt-v"),
    ("width", Value.num 250),
    ("debug", Value.bool false) ]

/-- The function `sdk_sendMsg` up to the reply, which is `sendMessage_then`. -/
def sdk_sendMsg (message : Message) (s : State) : State :=
  { s with sent := s.sent ++ [message] }

/-- The function `save_setting`. -/
def save_setting (name : String) (value : Value) (s : State) : State :=
  let settingsObject := assignProperty [] name value
  { s with pending := s.pending ++ [Request.set settingsObject] }

/-- The function `get_setting` up to the storage read; the callback of the read
is `get_setting_then`. -/
def get_setting (name : String) (k : Then) (s : State) : State :=
  { s with pending := s.pending ++ [Request.get name k] }

/-- The function `debug_log` up to the storage read. -/
def debug_log (output : Value) (s : State) : State :=
  get_setting "debug" (Then.debug_log output) s

/-- The function `sdk_send_all_settings` up to the storage read. -/
def sdk_send_all_settings (s : State) : State :=
  { s with pending := s.pending ++ [Request.getAll] }

/-- The function `sdk_send_changed_setting`. -/
def sdk_send_changed_setting (settingName : String) (s : State) : State :=
  let s := sdk_send_all_settings s
  let s :=
    if settingName = "toggleDisplayHotkey" then
      sdk_sendMsg { type := "settings.toggleDisplayHotkey" } s
    else s
  get_setting settingName (Then.changed settingName) s

/-- The function `restore_default_settings`. -/
def restore_default_settings (s : State) : State :=
  (Object.keys defaultSettings).foldl
    (fun s k => sdk_send_changed_setting k (save_setting k (readProperty defaultSettings k) s))
    s

/-- The function `sdk_replyHandler`.  The second branch assigns to
`message.type`, so the message is threaded through the branches. -/
def sdk_replyHandler (message : Message) (s : State) : State :=
  let s :=
    if message.type = "settings.post" then save_setting message.key message.value s else s
  let ms : Message × State :=
    if message.type = "settings.post-to-sdk" then
      let s := save_setting message.key message.value s
      let message := { message with type := "settings.post" }
      (message, sdk_sendMsg message s)
    else (message, s)
  let message := ms.1
  let s := ms.2
  let s := if message.type = "settings.reset" then restore_default_settings s else s
  if message.type = "debug.log" then debug_log message.value s else s

/-- The callback `reply => ...` of `sdk_sendMsg`; no reply is `none`. -/
def sendMessage_then (reply : Option Message) (s : State) : State :=
  match reply with
  | some message => sdk_replyHandler message s
  | none => s

/-- The callback passed to `setTimeout`. -/
def startup (s : State) : State :=
  let s := sdk_sendMsg { type := "settings.get", name := some "right" } s
  let s := sdk_sendMsg { type := "settings.get", name := some "hideInFullscreen" } s
  let s := sdk_sendMsg { type := "settings.get", name := some "theme" } s
  let s := sdk_sendMsg { type := "settings.get", name := some "tabtoolbarPosition" } s
  let s := sdk_sendMsg { type := "settings.get", name := some "toggleDisplayHotkey" } s
  let s := sdk_sendMsg { type := "settings.get", name := some "width" } s
  let s := sdk_sendMsg { type := "settings.get", name := some "debug" } s
  { s with listening := true }

/-- The event `storage.onChanged`: the listener, when it is registered. -/
def storage_onChanged (s : State) : State :=
  if s.listening then sdk_send_all_settings s else s

/-! ## Serving a storage request -/

/-- The object `browser.storage.local.get(name)` resolves to. -/
def storageGet (store : Obj) (name : String) : Obj :=
  if hasOwnProperty store name then [(name, getProp store name)] else []

/-- The content of the storage after `browser.storage.local.set(items)`. -/
def storageSet (store : Obj) (items : Obj) : Obj :=
  items.foldl (fun st p => setProp st p.1 p.2) store

/-- The call `fulfill(value)` in `get_setting(name)`: runs what was attached to
the promise. -/
def fulfill (k : Then) (name : String) (value : Value) (s : State) : State :=
  match k with
  | Then.caller => { s with fulfilled := s.fulfilled ++ [(name, value)] }
  | Then.debug_log output =>
      if looseEqTrue value then { s with console := s.console ++ [output] } else s
  | Then.changed settingName =>
      sdk_sendMsg { type := "settings.post", name := some settingName, value := value } s

/-- The callback `results => ...` of the storage read in `get_setting(name)`,
with the `.catch` behind it.  When `results` has an own property
`hasOwnProperty`, a stored value and no function, the call
`results.hasOwnProperty(name)` throws: the promise is not fulfilled and the
handler of `.catch` logs the error. -/
def get_setting_then (name : String) (k : Then) (results : Obj) (s : State) : State :=
  if hasOwnProperty results "hasOwnProperty" then debug_log Value.typeError s
  else
    let rs : Obj × State :=
      if !hasOwnProperty results name then
        let s := debug_log
          (Value.str ("VTR WebExt setting '" ++ name ++ "': not saved use default value.")) s
        if hasOwnProperty defaultSettings name then
          (assignProperty results name (readProperty defaultSettings name), s)
        else
          (results, debug_log
            (Value.str ("VTR WebExt setting '" ++ name ++ "': no default value found.")) s)
      else (results, s)
    fulfill k name (readProperty rs.1 name) rs.2

/-- The browser serves the oldest pending storage request. -/
def step (s : State) : State :=
  match s.pending with
  | [] => s
  | Request.set settingsObject :: rest =>
      { s with pending := rest, store := storageSet s.store settingsObject,
               writes := s.writes + 1 }
  | Request.get name k :: rest =>
      get_setting_then name k (storageGet s.store name)
        { s with pending := rest, reads := s.reads + 1 }
  | Request.getAll :: rest =>
      sdk_sendMsg { type := "settings.post-all", value := Value.obj s.store }
        { s with pending := rest, reads := s.reads + 1 }

/-- The browser serves `n` requests (fewer when none is left). -/
def run : Nat → State → State
  | 0, s => s
  | n + 1, s => run n (step s)

/-- The script after it has been loaded: the top-level call of
`sdk_send_all_settings`. -/
def load (store : Obj) : State := sdk_send_all_settings (idle store false)


/-! ## The settings table of the specification -/

/-- The recognized setting names of the specification's table. -/
def recognizedNames : List String :=
  ["right", "hideInFullscreen", "compact", "theme", "tabtoolbarPosition",
    "toggleDisplayHotkey", "width", "debug"]

/-- The documented default of a recognized setting, from the specification's table. -/
def documentedDefault : String → Value
  | "right" => Value.bool false
  | "hideInFullscreen" => Value.bool true
  | "compact" => Value.bool false
  | "theme" => Value.str "dark"
  | "tabtoolbarPosition" => Value.str "top"
  | "toggleDisplayHotkey" => Value.str "control-alt-v"
  | "width" => Value.num 250
  | "debug" => Value.bool false
  | _ => Value.undefined

/-! ## Vocabulary of the proofs -/

/-- Every request of `q` is the storage read of a `debug_log` call. -/
def debugReads (q : List Request) : Prop :=
  ∀ r ∈ q, ∃ output, r = Request.get "debug" (Then.debug_log output)

/-- The line `get_setting(name)` logs when `name` is not saved. -/
def notSaved (name : String) : Value :=
  Value.str ("VTR WebExt setting '" ++ name ++ "': not saved use default value.")

/-- The line `get_setting(name)` logs when `name` has no default. -/
def noDefault (name : String) : Value :=
  Value.str ("VTR WebExt setting '" ++ name ++ "': no default value found.")

/-- The storage requests `restore_default_settings` issues for the entries of `o`. -/
def resetRequests (o : Obj) : List Request :=
  o.flatMap fun p =>
    [Request.set [(p.1, p.2)], Request.getAll, Request.get p.1 (Then.changed p.1)]

/-- The messages sent while the requests `resetRequests o` are served over `store`. -/
def resetMessages : Obj → Obj → List Message
  | _, [] => []
  | store, (k, v) :: rest =>
      { type := "settings.post-all", value := Value.obj (setProp store k v) } ::
        { type := "settings.post", name := some k, value := v } ::
          resetMessages (setProp store k v) rest

/-! ## Objects -/

theorem hasOwnProperty_nil (k : String) : hasOwnProperty [] k = false := rfl

theorem getProp_nil (k : String) : getProp [] k = Value.undefined := rfl

theorem setProp_nil (k : String) (v : Value) : setProp [] k v = [(k, v)] := rfl

theorem hasOwnProperty_single (k : String) (v : Value) : hasOwnProperty [(k, v)] k = true := by
  simp [hasOwnProperty]

theorem getProp_single (k : String) (v : Value) : getProp [(k, v)] k = v := by
  simp [getProp]

theorem hasOwnProperty_setProp_self (o : Obj) (k : String) (v : Value) :
    hasOwnProperty (setProp o k v) k = true := by
  induction o with
  | nil => simp [setProp, hasOwnProperty]
  | cons p rest ih =>
    obtain ⟨k', v'⟩ := p
    by_cases h : k' = k
    · simp [setProp, hasOwnProperty, h]
    · simp [setProp, hasOwnProperty, h, ih]

theorem getProp_setProp_self (o : Obj) (k : String) (v : Value) :
    getProp (setProp o k v) k = v := by
  induction o with
  | nil => simp [setProp, getProp]
  | cons p rest ih =>
    obtain ⟨k', v'⟩ := p
    by_cases h : k' = k
    · simp [setProp, getProp, h]
    · simp [setProp, getProp, h, ih]

theorem hasOwnProperty_setProp_other (o : Obj) (k k' : String) (v : Value) (h : k ≠ k') :
    hasOwnProperty (setProp o k v) k' = hasOwnProperty o k' := by
  induction o with
  | nil => simp [setProp, hasOwnProperty, h]
  | cons p rest ih =>
    obtain ⟨k₀, v₀⟩ := p
    by_cases h₀ : k₀ = k
    · subst h₀; simp [setProp, hasOwnProperty, h]
    · by_cases h₁ : k₀ = k'
      · subst h₁; simp [setProp, hasOwnProperty, h₀]
      · simp [setProp, hasOwnProperty, h₀, h₁, ih]

theorem getProp_setProp_other (o : Obj) (k k' : String) (v : Value) (h : k ≠ k') :
    getProp (setProp o k v) k' = getProp o k' := by
  induction o with
  | nil => simp [setProp, getProp, h]
  | cons p rest ih =>
    obtain ⟨k₀, v₀⟩ := p
    by_cases h₀ : k₀ = k
    · subst h₀; simp [setProp, getProp, h]
    · by_cases h₁ : k₀ = k'
      · subst h₁; simp [setProp, getProp, h₀]
      · simp [setProp, getProp, h₀, h₁, ih]

theorem hasOwnProperty_single_other (k k' : String) (v : Value) (h : k ≠ k') :
    hasOwnProperty [(k, v)] k' = false := by
  simp [hasOwnProperty, h]

theorem readProperty_of_own (o : Obj) (k : String) (h : hasOwnProperty o k = true) :
    readProperty o k = getProp o k := by
  simp [readProperty, h]

theorem readProperty_single (k : String) (v : Value) : readProperty [(k, v)] k = v := by
  simp [readProperty, hasOwnProperty, getProp]

theorem readProperty_of_not_own (o : Obj) (k : String) (h : hasOwnProperty o k = false) :
    readProperty o k = readProperty [] k := by
  simp [readProperty, h, hasOwnProperty]

theorem assignProperty_of_ne (o : Obj) (k : String) (v : Value) (h : k ≠ "__proto__") :
    assignProperty o k v = setProp o k v := by
  simp [assignProperty, h]

theorem ne_proto_of_hasDefault (name : String) (h : hasOwnProperty defaultSettings name = true) :
    name ≠ "__proto__" := by
  rintro rfl
  exact absurd h (by decide)

theorem ne_hasOwnProperty_of_hasDefault (name : String)
    (h : hasOwnProperty defaultSettings name = true) : name ≠ "hasOwnProperty" := by
  rintro rfl
  exact absurd h (by decide)

theorem getProp_of_not_own (o : Obj) (k : String) (h : hasOwnProperty o k = false) :
    getProp o k = Value.undefined := by
  induction o with
  | nil => rfl
  | cons p rest ih =>
    obtain ⟨k', v⟩ := p
    by_cases hk : k' = k
    · simp [hasOwnProperty, hk] at h
    · simp only [hasOwnProperty, hk, if_false] at h
      simp [getProp, hk, ih h]

/-- The table of the script has the names and the defaults of the specification's table. -/
theorem recognized_hasDefault (name : String) (h : name ∈ recognizedNames) :
    hasOwnProperty defaultSettings name = true ∧
      getProp defaultSettings name = documentedDefault name := by
  simp only [recognizedNames, List.mem_cons, List.mem_singleton, List.not_mem_nil, or_false] at h
  rcases h with rfl | rfl | rfl | rfl | rfl | rfl | rfl | rfl <;> exact ⟨by decide, by rfl⟩

theorem storageSet_defaults_recognized (store : Obj) (name : String)
    (h : name ∈ recognizedNames) :
    hasOwnProperty (storageSet store defaultSettings) name = true ∧
      getProp (storageSet store defaultSettings) name = documentedDefault name := by
  simp only [recognizedNames, List.mem_cons, List.mem_singleton, List.not_mem_nil, or_false] at h
  rcases h with rfl | rfl | rfl | rfl | rfl | rfl | rfl | rfl <;>
    simp [storageSet, defaultSettings, documentedDefault, hasOwnProperty_setProp_self,
      getProp_setProp_self, hasOwnProperty_setProp_other, getProp_setProp_other]

theorem storageSet_defaults_other (store : Obj) (k : String) (h : k ∉ recognizedNames) :
    hasOwnProperty (storageSet store defaultSettings) k = hasOwnProperty store k ∧
      getProp (storageSet store defaultSettings) k = getProp store k := by
  simp only [recognizedNames, List.mem_cons, List.mem_singleton, List.not_mem_nil, or_false,
    not_or] at h
  obtain ⟨h1, h2, h3, h4, h5, h6, h7, h8⟩ := h
  simp [storageSet, defaultSettings, hasOwnProperty_setProp_other, getProp_setProp_other,
    Ne.symm h1, Ne.symm h2, Ne.symm h3, Ne.symm h4, Ne.symm h5, Ne.symm h6, Ne.symm h7,
    Ne.symm h8]

/-- An array whose `join` denotes the number `1` compares `== true`; one whose `join` does
not, does not. -/
theorem looseEqTrue_arr :
    looseEqTrue (Value.arr [Value.num 1]) = true ∧
      looseEqTrue (Value.arr [Value.str "1"]) = true ∧
      looseEqTrue (Value.arr [Value.num 1, Value.num 2]) = false ∧
      looseEqTrue (Value.arr []) = false := by
  decide

/-! ## Runs -/

theorem run_succ (n : Nat) (s : State) : run (n + 1) s = run n (step s) := rfl

theorem run_add (m n : Nat) (s : State) : run (m + n) s = run n (run m s) := by
  induction m generalizing s with
  | zero => simp [run]
  | succ m ih => rw [Nat.add_right_comm, run_succ, ih, run_succ]

theorem step_of_pending_nil (s : State) (h : s.pending = []) : step s = s := by
  simp [step, h]

theorem run_of_pending_nil (n : Nat) (s : State) (h : s.pending = []) : run n s = s := by
  induction n with
  | zero => rfl
  | succ n ih => rw [run_succ, step_of_pending_nil s h, ih]

/-! ## The callback of `get_setting` -/

theorem get_setting_then_saved (store : Obj) (name : String) (k : Then) (s : State)
    (h : hasOwnProperty store name = true) (hn : name ≠ "hasOwnProperty") :
    get_setting_then name k (storageGet store name) s = fulfill k name (getProp store name) s := by
  simp [get_setting_then, storageGet, h, hasOwnProperty_single, readProperty_single,
    hasOwnProperty_single_other _ _ _ hn]

theorem get_setting_then_default (store : Obj) (name : String) (k : Then) (s : State)
    (h : hasOwnProperty store name = false) (hd : hasOwnProperty defaultSettings name = true) :
    get_setting_then name k (storageGet store name) s
      = fulfill k name (getProp defaultSettings name) (debug_log (notSaved name) s) := by
  simp [get_setting_then, storageGet, h, hd, hasOwnProperty_nil, setProp_nil,
    readProperty_single, readProperty_of_own _ _ hd,
    assignProperty_of_ne _ _ _ (ne_proto_of_hasDefault name hd), notSaved]

theorem get_setting_then_unknown (store : Obj) (name : String) (k : Then) (s : State)
    (h : hasOwnProperty store name = false) (hd : hasOwnProperty defaultSettings name = false) :
    get_setting_then name k (storageGet store name) s
      = fulfill k name (readProperty [] name)
          (debug_log (noDefault name) (debug_log (notSaved name) s)) := by
  simp [get_setting_then, storageGet, h, hd, hasOwnProperty_nil, notSaved, noDefault]

/-- With an entry stored under `hasOwnProperty`, the callback of the read of that name throws
at its first call, and the handler of `.catch` logs the error. -/
theorem get_setting_then_thrown (store : Obj) (k : Then) (s : State)
    (h : hasOwnProperty store "hasOwnProperty" = true) :
    get_setting_then "hasOwnProperty" k (storageGet store "hasOwnProperty") s
      = debug_log Value.typeError s := by
  simp [get_setting_then, storageGet, h, hasOwnProperty_single]

/-- Unless it throws, the callback of the read in `get_setting(name)` fulfils the promise with
the saved value, or else with what `defaultSettings[name]` reads, and before that issues
nothing but reads of `debug_log` calls. -/
theorem get_setting_then_frame (store : Obj) (name : String) (k : Then) (s : State)
    (hcall : name = "hasOwnProperty" → hasOwnProperty store name = false) :
    ∃ t : State,
      get_setting_then name k (storageGet store name) s
        = fulfill k name
            (if hasOwnProperty store name then getProp store name
              else readProperty defaultSettings name) t ∧
      t.store = s.store ∧ t.sent = s.sent ∧ t.fulfilled = s.fulfilled ∧ t.writes = s.writes ∧
      (debugReads s.pending → debugReads t.pending) := by
  cases hs : hasOwnProperty store name with
  | true =>
    have hn : name ≠ "hasOwnProperty" := fun h => by
      rw [hcall h] at hs; exact Bool.noConfusion hs
    exact ⟨s, by rw [get_setting_then_saved _ _ _ _ hs hn]; simp, rfl, rfl, rfl, rfl, id⟩
  | false =>
    cases hd : hasOwnProperty defaultSettings name with
    | true =>
      refine ⟨debug_log (notSaved name) s,
        by rw [get_setting_then_default _ _ _ _ hs hd, readProperty_of_own _ _ hd]; simp,
        rfl, rfl, rfl, rfl, ?_⟩
      intro h r hr
      simp only [debug_log, get_setting, List.mem_append, List.mem_singleton] at hr
      rcases hr with hr | hr
      · exact h r hr
      · exact ⟨_, hr⟩
    | false =>
      refine ⟨debug_log (noDefault name) (debug_log (notSaved name) s),
        by rw [get_setting_then_unknown _ _ _ _ hs hd, readProperty_of_not_own _ _ hd]; simp,
        rfl, rfl, rfl, rfl, ?_⟩
      intro h r hr
      simp only [debug_log, get_setting, List.mem_append, List.mem_singleton] at hr
      rcases hr with (hr | hr) | hr
      · exact h r hr
      · exact ⟨_, hr⟩
      · exact ⟨_, hr⟩

/-! ## Chains of `debug_log` reads -/

theorem fulfill_debug_log_frame (output : Value) (name : String) (value : Value) (s : State) :
    (fulfill (Then.debug_log output) name value s).pending = s.pending ∧
      (fulfill (Then.debug_log output) name value s).store = s.store ∧
      (fulfill (Then.debug_log output) name value s).sent = s.sent ∧
      (fulfill (Then.debug_log output) name value s).fulfilled = s.fulfilled ∧
      (fulfill (Then.debug_log output) name value s).writes = s.writes ∧
      (fulfill (Then.debug_log output) name value s).listening = s.listening := by
  simp only [fulfill]
  split <;> simp

/-- Serving the read of a `debug_log` call leaves only such reads behind and touches neither
the storage nor the messages nor the recorded results. -/
theorem step_debugReads (s : State) (h : debugReads s.pending) :
    debugReads (step s).pending ∧ (step s).store = s.store ∧ (step s).sent = s.sent ∧
      (step s).fulfilled = s.fulfilled ∧ (step s).writes = s.writes ∧
      (step s).listening = s.listening := by
  cases hp : s.pending with
  | nil => rw [step_of_pending_nil s hp]; simp [hp, debugReads]
  | cons r rest =>
    have hrest : debugReads rest :=
      fun r' hr' => h r' (by rw [hp]; exact List.mem_cons_of_mem _ hr')
    obtain ⟨output, rfl⟩ := h r (by rw [hp]; exact List.mem_cons_self _ _)
    have hstep : step s = get_setting_then "debug" (Then.debug_log output)
        (storageGet s.store "debug") { s with pending := rest, reads := s.reads + 1 } := by
      simp [step, hp]
    rw [hstep]
    cases hs : hasOwnProperty s.store "debug" with
    | true =>
      rw [get_setting_then_saved _ _ _ _ hs (by decide)]
      obtain ⟨h1, h2, h3, h4, h5, h6⟩ := fulfill_debug_log_frame output "debug"
        (getProp s.store "debug") { s with pending := rest, reads := s.reads + 1 }
      exact ⟨by rw [h1]; exact hrest, h2, h3, h4, h5, h6⟩
    | false =>
      rw [get_setting_then_default _ _ _ _ hs (by decide)]
      obtain ⟨h1, h2, h3, h4, h5, h6⟩ := fulfill_debug_log_frame output "debug"
        (getProp defaultSettings "debug")
        (debug_log (notSaved "debug") { s with pending := rest, reads := s.reads + 1 })
      refine ⟨?_, h2, h3, h4, h5, h6⟩
      rw [h1]
      intro r' hr'
      simp only [debug_log, get_setting, List.mem_append, List.mem_singleton] at hr'
      rcases hr' with hr' | hr'
      · exact hrest r' hr'
      · exact ⟨_, hr'⟩

theorem run_debugReads (n : Nat) (s : State) (h : debugReads s.pending) :
    debugReads (run n s).pending ∧ (run n s).store = s.store ∧ (run n s).sent = s.sent ∧
      (run n s).fulfilled = s.fulfilled ∧ (run n s).writes = s.writes ∧
      (run n s).listening = s.listening := by
  induction n generalizing s with
  | zero => exact ⟨h, rfl, rfl, rfl, rfl, rfl⟩
  | succ n ih =>
    obtain ⟨h0, h1, h2, h3, h4, h5⟩ := step_debugReads s h
    obtain ⟨g0, g1, g2, g3, g4, g5⟩ := ih (step s) h0
    rw [run_succ]
    exact ⟨g0, g1.trans h1, g2.trans h2, g3.trans h3, g4.trans h4, g5.trans h5⟩

/-- While `debug` is not saved, serving the read of a `debug_log` call issues the next one:
the queue does not empty, nothing is logged, and one more read has been served. -/
theorem step_debug_absent (s : State) (habsent : hasOwnProperty s.store "debug" = false)
    (h : debugReads s.pending) (hne : s.pending ≠ []) :
    (step s).pending ≠ [] ∧ (step s).console = s.console ∧ (step s).reads = s.reads + 1 := by
  cases hp : s.pending with
  | nil => exact absurd hp hne
  | cons r rest =>
    obtain ⟨output, rfl⟩ := h r (by rw [hp]; exact List.mem_cons_self _ _)
    have hstep : step s = get_setting_then "debug" (Then.debug_log output)
        (storageGet s.store "debug") { s with pending := rest, reads := s.reads + 1 } := by
      simp [step, hp]
    rw [hstep, get_setting_then_default _ _ _ _ habsent (by decide)]
    simp [fulfill, defaultSettings, getProp, looseEqTrue, debug_log, get_setting]

theorem run_debug_absent (n : Nat) (s : State) (habsent : hasOwnProperty s.store "debug" = false)
    (h : debugReads s.pending) (hne : s.pending ≠ []) :
    (run n s).pending ≠ [] ∧ (run n s).console = s.console ∧ (run n s).reads = s.reads + n := by
  induction n generalizing s with
  | zero => exact ⟨hne, rfl, rfl⟩
  | succ n ih =>
    obtain ⟨h0, h1, _⟩ := step_debugReads s h
    obtain ⟨g0, g1, g2⟩ := step_debug_absent s habsent h hne
    obtain ⟨k0, k1, k2⟩ := ih (step s) (by rw [h1]; exact habsent) h0 g0
    rw [run_succ]
    exact ⟨k0, k1.trans g1, by rw [k2, g2]; omega⟩

/-! ## `sdk_send_changed_setting` and `restore_default_settings` -/

theorem sdk_send_changed_setting_idle (store : Obj) (listening : Bool) (name : String) :
    sdk_send_changed_setting name (idle store listening)
      = { store := store, listening := listening,
          pending := [Request.getAll, Request.get name (Then.changed name)],
          sent := if name = "toggleDisplayHotkey" then
            [{ type := "settings.toggleDisplayHotkey" }] else [] } := by
  by_cases h : name = "toggleDisplayHotkey" <;>
    simp [sdk_send_changed_setting, sdk_send_all_settings, sdk_sendMsg, get_setting, idle, h]

/-- The three requests of one setting of a reset: the write, the read of everything and the
read of the setting, which finds what was just written. -/
theorem run_reset_entry (s : State) (k : String) (v : Value) (rest : List Request)
    (hk : k ≠ "hasOwnProperty")
    (h : s.pending = Request.set [(k, v)] :: Request.getAll ::
      Request.get k (Then.changed k) :: rest) :
    run 3 s = { s with
      pending := rest, store := setProp s.store k v,
      sent := s.sent ++ [{ type := "settings.post-all", value := Value.obj (setProp s.store k v) },
        { type := "settings.post", name := some k, value := v }],
      reads := s.reads + 2, writes := s.writes + 1 } := by
  simp [run, step, h, sdk_sendMsg, storageSet, storageGet, get_setting_then, fulfill,
    hasOwnProperty_setProp_self, getProp_setProp_self, hasOwnProperty_single,
    readProperty_single, hasOwnProperty_single_other _ _ _ hk]

theorem run_resetRequests (o : Obj) (s : State) (tail : List Request)
    (ho : ∀ p ∈ o, p.1 ≠ "hasOwnProperty")
    (h : s.pending = resetRequests o ++ tail) :
    run (3 * o.length) s = { s with
      pending := tail, store := storageSet s.store o,
      sent := s.sent ++ resetMessages s.store o,
      reads := s.reads + 2 * o.length, writes := s.writes + o.length } := by
  induction o generalizing s with
  | nil =>
    simp [resetRequests] at h
    simp [run, storageSet, resetMessages, ← h]
  | cons p rest ih =>
    obtain ⟨k, v⟩ := p
    have h3 := run_reset_entry s k v (resetRequests rest ++ tail)
      (ho (k, v) (List.mem_cons_self _ _)) (by simpa [resetRequests] using h)
    have hlen : 3 * ((k, v) :: rest).length = 3 + 3 * rest.length := by
      simp [Nat.mul_succ, Nat.add_comm]
    rw [hlen, run_add, h3, ih _ (fun p hp => ho p (List.mem_cons_of_mem _ hp)) rfl]
    simp [storageSet, resetMessages]
    omega

theorem restore_default_settings_idle (store : Obj) (listening : Bool) :
    restore_default_settings (idle store listening)
      = { store := store, listening := listening, pending := resetRequests defaultSettings,
          sent := [{ type := "settings.toggleDisplayHotkey" }] } := by
  simp [restore_default_settings, Object.keys, defaultSettings, sdk_send_changed_setting,
    sdk_send_all_settings, save_setting, get_setting, sdk_sendMsg, setProp_nil, getProp,
    readProperty, hasOwnProperty, assignProperty, resetRequests, idle]

theorem run_restore_default_settings (store : Obj) (listening : Bool) (tail : List Request) :
    run 24 { store := store, listening := listening,
             pending := resetRequests defaultSettings ++ tail,
             sent := [{ type := "settings.toggleDisplayHotkey" }] }
      = { store := storageSet store defaultSettings, listening := listening,
          pending := tail,
          sent := { type := "settings.toggleDisplayHotkey" } ::
            resetMessages store defaultSettings,
          reads := 16, writes := 8 } := by
  have := run_resetRequests defaultSettings
    { store := store, listening := listening,
      pending := resetRequests defaultSettings ++ tail,
      sent := [{ type := "settings.toggleDisplayHotkey" }] } tail (by decide) rfl
  simpa [defaultSettings] using this

theorem resetMessages_postAll (store o : Obj) :
    ((resetMessages store o).filter fun m => m.type = "settings.post-all").length
      = o.length := by
  induction o generalizing store with
  | nil => simp [resetMessages]
  | cons p rest ih =>
    obtain ⟨k, v⟩ := p
    simp [resetMessages, ih]

/-! ## The claims -/

/-- Claim C1: for a recognized setting name that is absent from the storage, the promise of
`get_setting(name)` resolves, when the read is served, to the documented default of the name
(and to nothing else later on), and however long the browser goes on serving requests the
storage keeps its content and no write is served. -/
theorem get_setting_absent_resolves_to_default (store : Obj) (listening : Bool)
    (name : String) (hname : name ∈ recognizedNames)
    (habsent : hasOwnProperty store name = false) (n : Nat) :
    (run (n + 1) (get_setting name Then.caller (idle store listening))).fulfilled
        = [(name, documentedDefault name)] ∧
      (run n (get_setting name Then.caller (idle store listening))).store = store ∧
      (run n (get_setting name Then.caller (idle store listening))).writes = 0 := by
  obtain ⟨hd, hv⟩ := recognized_hasDefault name hname
  have hstep : step (get_setting name Then.caller (idle store listening))
      = fulfill Then.caller name (documentedDefault name)
          (debug_log (notSaved name)
            { store := store, listening := listening, reads := 1 }) := by
    rw [← hv, ← get_setting_then_default store name _ _ habsent hd]
    simp [step, get_setting, idle]
  have hchain := fun m =>
    run_debugReads m (step (get_setting name Then.caller (idle store listening)))
      (by rw [hstep]; simp [fulfill, debug_log, get_setting, debugReads])
  refine ⟨?_, ?_⟩
  · rw [run_succ, (hchain n).2.2.2.1, hstep]; simp [fulfill, debug_log, get_setting]
  · cases n with
    | zero => simp [run, get_setting, idle]
    | succ m =>
      rw [run_succ, (hchain m).2.1, (hchain m).2.2.2.2.1, hstep]
      simp [fulfill, debug_log, get_setting]

/-- Witness of C1: on empty storage `get_setting("width")` resolves to `250`, and after three
further requests the storage is still empty. -/
theorem get_setting_absent_resolves_to_default_witness :
    (run 4 (get_setting "width" Then.caller (idle [] false))).fulfilled
        = [("width", Value.num 250)] ∧
      (run 3 (get_setting "width" Then.caller (idle [] false))).store = [] ∧
      (run 3 (get_setting "width" Then.caller (idle [] false))).writes = 0 :=
  get_setting_absent_resolves_to_default [] false "width" (by decide) rfl 3

/-- Claim C2: `save_setting(name, v)` followed by `get_setting(name)`, over any storage: once
the write and the read are served nothing is pending, the promise has resolved to `v`, and
the only change of the storage is `v` under `name`.  This holds of every name but two, which
are no names of the table: `__proto__`, under which nothing is saved, and `hasOwnProperty`,
whose saved entry makes the callback of the read throw. -/
theorem save_setting_get_setting_roundtrip (store : Obj) (listening : Bool) (name : String)
    (v : Value) (hproto : name ≠ "__proto__") (hcall : name ≠ "hasOwnProperty")
    (_hv : v ≠ Value.undefined) :
    run 2 (get_setting name Then.caller (save_setting name v (idle store listening)))
      = { store := setProp store name v, fulfilled := [(name, v)], listening := listening,
          reads := 1, writes := 1 } := by
  simp [run, step, get_setting, save_setting, idle, storageSet, setProp_nil, storageGet,
    get_setting_then, fulfill, hasOwnProperty_setProp_self, getProp_setProp_self,
    hasOwnProperty_single, readProperty_single, assignProperty_of_ne _ _ _ hproto,
    hasOwnProperty_single_other _ _ _ hcall]

/-- Witness of C2: after `false` is saved under `hideInFullscreen`, whose default is `true`,
the read resolves to `false`. -/
theorem save_setting_get_setting_roundtrip_witness :
    run 2 (get_setting "hideInFullscreen" Then.caller
        (save_setting "hideInFullscreen" (Value.bool false) (idle [] false)))
      = { store := setProp [] "hideInFullscreen" (Value.bool false),
          fulfilled := [("hideInFullscreen", Value.bool false)], listening := false,
          reads := 1, writes := 1 } :=
  save_setting_get_setting_roundtrip [] false "hideInFullscreen" (Value.bool false)
    (by decide) (by decide) (by simp)

/-- Claim C3: over any storage, the 24 requests of `restore_default_settings()` are all served
after 24 steps; a `get_setting(name)` for a recognized name, called then or called right after
`restore_default_settings()` returned, resolves to the documented default of the name; and
every key outside the recognized names is in the storage as before, with its value. -/
theorem restore_default_settings_then_get_setting (store : Obj) (listening : Bool)
    (name : String) (hname : name ∈ recognizedNames) :
    (run 24 (restore_default_settings (idle store listening))).pending = [] ∧
    (run 1 (get_setting name Then.caller
        (run 24 (restore_default_settings (idle store listening))))).fulfilled
      = [(name, documentedDefault name)] ∧
    (run 25 (get_setting name Then.caller
        (restore_default_settings (idle store listening)))).fulfilled
      = [(name, documentedDefault name)] ∧
    (run 25 (get_setting name Then.caller
        (restore_default_settings (idle store listening)))).pending = [] ∧
    ∀ other : String, other ∉ recognizedNames →
      hasOwnProperty (run 24 (restore_default_settings (idle store listening))).store other
        = hasOwnProperty store other ∧
      getProp (run 24 (restore_default_settings (idle store listening))).store other
        = getProp store other := by
  obtain ⟨h1, h2⟩ := storageSet_defaults_recognized store name hname
  have hnow : run 24 (restore_default_settings (idle store listening))
      = { store := storageSet store defaultSettings, listening := listening,
          sent := { type := "settings.toggleDisplayHotkey" } ::
            resetMessages store defaultSettings,
          reads := 16, writes := 8 } := by
    rw [restore_default_settings_idle]
    simpa using run_restore_default_settings store listening []
  have hlater : run 24 (get_setting name Then.caller
        (restore_default_settings (idle store listening)))
      = { store := storageSet store defaultSettings, listening := listening,
          pending := [Request.get name Then.caller],
          sent := { type := "settings.toggleDisplayHotkey" } ::
            resetMessages store defaultSettings,
          reads := 16, writes := 8 } := by
    rw [restore_default_settings_idle]
    exact run_restore_default_settings store listening [Request.get name Then.caller]
  have h25 : (25 : Nat) = 24 + 1 := rfl
  rw [h25, run_add, hlater, hnow]
  have hn : name ≠ "hasOwnProperty" :=
    ne_hasOwnProperty_of_hasDefault name (recognized_hasDefault name hname).1
  refine ⟨rfl, ?_, ?_, ?_, fun other hother => storageSet_defaults_other store other hother⟩ <;>
    simp [run, step, get_setting, get_setting_then_saved _ _ _ _ h1 hn, h2, fulfill]

/-- Witness of C3: a storage with a width of 300 and a foreign key. -/
theorem restore_default_settings_then_get_setting_witness :
    (run 24 (restore_default_settings
        (idle [("width", Value.num 300), ("zoom", Value.num 2)] true))).pending = [] ∧
    (run 1 (get_setting "width" Then.caller
        (run 24 (restore_default_settings
          (idle [("width", Value.num 300), ("zoom", Value.num 2)] true))))).fulfilled
      = [("width", documentedDefault "width")] ∧
    (run 25 (get_setting "width" Then.caller
        (restore_default_settings
          (idle [("width", Value.num 300), ("zoom", Value.num 2)] true)))).fulfilled
      = [("width", documentedDefault "width")] ∧
    (run 25 (get_setting "width" Then.caller
        (restore_default_settings
          (idle [("width", Value.num 300), ("zoom", Value.num 2)] true)))).pending = [] ∧
    ∀ other : String, other ∉ recognizedNames →
      hasOwnProperty (run 24 (restore_default_settings
          (idle [("width", Value.num 300), ("zoom", Value.num 2)] true))).store other
        = hasOwnProperty [("width", Value.num 300), ("zoom", Value.num 2)] other ∧
      getProp (run 24 (restore_default_settings
          (idle [("width", Value.num 300), ("zoom", Value.num 2)] true))).store other
        = getProp [("width", Value.num 300), ("zoom", Value.num 2)] other :=
  restore_default_settings_then_get_setting
    [("width", Value.num 300), ("zoom", Value.num 2)] true "width" (by decide)

/-- Counterexample to C4: for the name `__proto__` the assignment in `save_setting` reaches
the setter of `Object.prototype` and the object handed to the storage has no property; once
the write is served nothing is pending and the storage, empty before, is still empty, while
the `settings.post` message for the name has been sent. -/
theorem post_to_sdk_proto_saves_nothing :
    run 1 (sdk_replyHandler
        { type := "settings.post-to-sdk", name := some "__proto__", value := Value.str "light" }
        (idle [] false))
      = { store := [], listening := false, writes := 1,
          sent := [{ type := "settings.post", name := some "__proto__",
                     value := Value.str "light" }] } := by
  simp [run, step, sdk_replyHandler, sdk_sendMsg, Message.key, save_setting, idle, storageSet,
    assignProperty, hasOwnProperty]

/-- Claim C4 as amended: for a message of type `settings.post-to-sdk` with a name other than
`__proto__` and any value, `sdk_replyHandler` issues one storage request, the write of the
value under the name, and sends one message, of type `settings.post` with the same name and
value; once the write is served the storage holds the value under the name, one write has
been served, nothing is pending and the message is still the only one sent.  No other branch
has fired: none has issued a request or sent a message. -/
theorem post_to_sdk_saves_and_relays (store : Obj) (listening : Bool) (name : String)
    (value : Value) (hproto : name ≠ "__proto__") :
    sdk_replyHandler { type := "settings.post-to-sdk", name := some name, value := value }
        (idle store listening)
      = { store := store, listening := listening,
          pending := [Request.set [(name, value)]],
          sent := [{ type := "settings.post", name := some name, value := value }] } ∧
    run 1 (sdk_replyHandler { type := "settings.post-to-sdk", name := some name, value := value }
        (idle store listening))
      = { store := setProp store name value, listening := listening, writes := 1,
          sent := [{ type := "settings.post", name := some name, value := value }] } := by
  simp [run, step, sdk_replyHandler, sdk_sendMsg, Message.key, save_setting, idle, storageSet,
    setProp_nil, assignProperty_of_ne _ _ _ hproto]

/-- Witness of C4 as amended: the theme `light`, over a storage with the theme `dark`. -/
theorem post_to_sdk_saves_and_relays_witness :
    sdk_replyHandler
        { type := "settings.post-to-sdk", name := some "theme", value := Value.str "light" }
        (idle [("theme", Value.str "dark")] false)
      = { store := [("theme", Value.str "dark")], listening := false,
          pending := [Request.set [("theme", Value.str "light")]],
          sent := [{ type := "settings.post", name := some "theme",
                     value := Value.str "light" }] } ∧
    run 1 (sdk_replyHandler
        { type := "settings.post-to-sdk", name := some "theme", value := Value.str "light" }
        (idle [("theme", Value.str "dark")] false))
      = { store := setProp [("theme", Value.str "dark")] "theme" (Value.str "light"),
          listening := false, writes := 1,
          sent := [{ type := "settings.post", name := some "theme",
                     value := Value.str "light" }] } :=
  post_to_sdk_saves_and_relays [("theme", Value.str "dark")] false "theme" (Value.str "light")
    (by decide)

/-- Claim C5, at the code: the timer callback sends seven `settings.get` messages, for the
names below; `compact` is a key of `defaultSettings` and no message asks for it. -/
theorem startup_requests_omit_compact (store : Obj) (listening : Bool) :
    (startup (idle store listening)).sent.map (fun m => (m.type, m.name))
      = [("settings.get", some "right"), ("settings.get", some "hideInFullscreen"),
          ("settings.get", some "theme"), ("settings.get", some "tabtoolbarPosition"),
          ("settings.get", some "toggleDisplayHotkey"), ("settings.get", some "width"),
          ("settings.get", some "debug")] ∧
    "compact" ∈ Object.keys defaultSettings ∧
    some "compact" ∉ (startup (idle store listening)).sent.map (fun m => m.name) := by
  refine ⟨?_, by decide, ?_⟩ <;> simp [startup, sdk_sendMsg, idle]

/-- Counterexample to C6: on empty storage, after the message
`settings.post` for `toggleDisplayHotkey` with the value `control-alt-b` has been handled and
its one request served, nothing is pending and no message has been sent. -/
theorem settings_post_hotkey_sends_nothing :
    (run 1 (sdk_replyHandler
        { type := "settings.post", name := some "toggleDisplayHotkey",
          value := Value.str "control-alt-b" } (idle [] false))).pending = [] ∧
    (run 1 (sdk_replyHandler
        { type := "settings.post", name := some "toggleDisplayHotkey",
          value := Value.str "control-alt-b" } (idle [] false))).sent = [] := by
  simp [run, step, sdk_replyHandler, sdk_sendMsg, Message.key, save_setting, idle, storageSet,
    setProp_nil, assignProperty, hasOwnProperty]

/-- Claim C6 as amended: for a message of type `settings.post` for `toggleDisplayHotkey`,
`sdk_replyHandler` does what `save_setting` does and nothing more; once the write is served
the storage holds the value, nothing is pending and no message has been sent. -/
theorem settings_post_only_saves (store : Obj) (listening : Bool) (v : Value)
    (_hv : v ≠ Value.undefined) :
    sdk_replyHandler { type := "settings.post", name := some "toggleDisplayHotkey", value := v }
        (idle store listening)
      = save_setting "toggleDisplayHotkey" v (idle store listening) ∧
    run 1 (sdk_replyHandler
        { type := "settings.post", name := some "toggleDisplayHotkey", value := v }
        (idle store listening))
      = { store := setProp store "toggleDisplayHotkey" v, listening := listening, writes := 1,
          sent := [] } := by
  simp [run, step, sdk_replyHandler, sdk_sendMsg, Message.key, save_setting, idle, storageSet,
    setProp_nil, assignProperty, hasOwnProperty]

/-- Witness of C6 as amended: the value `control-alt-b` over empty storage. -/
theorem settings_post_only_saves_witness :
    sdk_replyHandler
        { type := "settings.post", name := some "toggleDisplayHotkey",
          value := Value.str "control-alt-b" } (idle [] true)
      = save_setting "toggleDisplayHotkey" (Value.str "control-alt-b") (idle [] true) ∧
    run 1 (sdk_replyHandler
        { type := "settings.post", name := some "toggleDisplayHotkey",
          value := Value.str "control-alt-b" } (idle [] true))
      = { store := setProp [] "toggleDisplayHotkey" (Value.str "control-alt-b"),
          listening := true, writes := 1, sent := [] } :=
  settings_post_only_saves [] true (Value.str "control-alt-b") (by simp)

/-- Claim C7: over any storage, `sdk_replyHandler` on a `settings.reset` message issues, for
every key of `defaultSettings` in turn, the write of its default, one read of everything (the
call of `sdk_send_all_settings`) and the read of the key; after 24 steps all are served, and
the messages of type `settings.post-all` that were sent are 8. -/
theorem reset_sends_one_post_all_per_name (store : Obj) (listening : Bool) :
    (sdk_replyHandler { type := "settings.reset" } (idle store listening)).pending
      = (Object.keys defaultSettings).flatMap (fun k =>
          [Request.set [(k, getProp defaultSettings k)], Request.getAll,
            Request.get k (Then.changed k)]) ∧
    (run 24 (sdk_replyHandler { type := "settings.reset" } (idle store listening))).pending
      = [] ∧
    ((run 24 (sdk_replyHandler { type := "settings.reset" } (idle store listening))).sent.filter
        fun m => m.type = "settings.post-all").length = 8 ∧
    (Object.keys defaultSettings).length = 8 := by
  have hh : sdk_replyHandler { type := "settings.reset" } (idle store listening)
      = restore_default_settings (idle store listening) := by
    simp [sdk_replyHandler]
  have hnow : run 24 (restore_default_settings (idle store listening))
      = { store := storageSet store defaultSettings, listening := listening,
          sent := { type := "settings.toggleDisplayHotkey" } ::
            resetMessages store defaultSettings,
          reads := 16, writes := 8 } := by
    rw [restore_default_settings_idle]
    simpa using run_restore_default_settings store listening []
  rw [hh, hnow]
  refine ⟨?_, rfl, ?_, rfl⟩
  · rw [restore_default_settings_idle]
    simp [resetRequests, Object.keys, defaultSettings, getProp]
  · have := resetMessages_postAll store defaultSettings
    simpa [defaultSettings] using this

/-- Counterexample to C8: with entries stored under `hasOwnProperty` and `debug`, the read of
`sdk_send_changed_setting("hasOwnProperty")` makes the callback throw at
`results.hasOwnProperty(name)`; once the three requests are served nothing is pending, and the
`settings.post-all` message is the only message sent: there is no `settings.post` message. -/
theorem sdk_send_changed_setting_hasOwnProperty_sends_no_post :
    (run 3 (sdk_send_changed_setting "hasOwnProperty"
        (idle [("hasOwnProperty", Value.num 5), ("debug", Value.bool false)] false))).pending
      = [] ∧
    (run 3 (sdk_send_changed_setting "hasOwnProperty"
        (idle [("hasOwnProperty", Value.num 5), ("debug", Value.bool false)] false))).sent
      = [{ type := "settings.post-all",
           value := Value.obj [("hasOwnProperty", Value.num 5), ("debug", Value.bool false)] }] := by
  simp [run, step, sdk_send_changed_setting, sdk_send_all_settings, sdk_sendMsg, get_setting,
    idle, storageGet, hasOwnProperty, getProp, get_setting_then, debug_log, fulfill,
    readProperty, looseEqTrue]

/-- Claim C8 as amended: over any storage and for any name, the name `hasOwnProperty` only
while nothing is stored under it, with `v` the value `get_setting(name)` resolves to: once the two requests of `sdk_send_changed_setting(name)` are served, and however
many more are served after them, the messages sent are the `settings.toggleDisplayHotkey`
message without name and value when the name is `toggleDisplayHotkey` and no such message
otherwise, then one `settings.post-all` message whose value is the storage as it is, then one
`settings.post` message with the name and `v`; at no time is the storage changed or a write
served. -/
theorem sdk_send_changed_setting_messages (store : Obj) (listening : Bool) (name : String)
    (hcall : name = "hasOwnProperty" → hasOwnProperty store name = false) :
    ∃ v : Value, ∀ n : Nat,
      (run (n + 1) (get_setting name Then.caller (idle store listening))).fulfilled
        = [(name, v)] ∧
      (run (n + 2) (sdk_send_changed_setting name (idle store listening))).sent
        = (if name = "toggleDisplayHotkey" then
            [({ type := "settings.toggleDisplayHotkey" } : Message)] else []) ++
          [{ type := "settings.post-all", value := Value.obj store },
            { type := "settings.post", name := some name, value := v }] ∧
      (run n (sdk_send_changed_setting name (idle store listening))).store = store ∧
      (run n (sdk_send_changed_setting name (idle store listening))).writes = 0 := by
  refine ⟨if hasOwnProperty store name then getProp store name
    else readProperty defaultSettings name, fun n => ?_⟩
  rw [sdk_send_changed_setting_idle]
  -- the read of an outside caller
  obtain ⟨t, ht, _, _, ht3, _, ht5⟩ := get_setting_then_frame store name Then.caller
    { store := store, listening := listening, reads := 1 } hcall
  have hA : step (get_setting name Then.caller (idle store listening))
      = fulfill Then.caller name (if hasOwnProperty store name then getProp store name
          else readProperty defaultSettings name) t := by
    rw [← ht]; simp [step, get_setting, idle]
  -- the two reads of `sdk_send_changed_setting`
  obtain ⟨u, hu, hu1, hu2, _, hu4, hu5⟩ := get_setting_then_frame store name
    (Then.changed name)
    { store := store, listening := listening, reads := 2,
      sent := (if name = "toggleDisplayHotkey" then
        [({ type := "settings.toggleDisplayHotkey" } : Message)] else []) ++
        [{ type := "settings.post-all", value := Value.obj store }] } hcall
  have hB1 :
      step { store := store, listening := listening,
             pending := [Request.getAll, Request.get name (Then.changed name)],
             sent := if name = "toggleDisplayHotkey" then
               [({ type := "settings.toggleDisplayHotkey" } : Message)] else [] }
      = { store := store, listening := listening, reads := 1,
          pending := [Request.get name (Then.changed name)],
          sent := (if name = "toggleDisplayHotkey" then
            [({ type := "settings.toggleDisplayHotkey" } : Message)] else []) ++
            [{ type := "settings.post-all", value := Value.obj store }] } := by
    simp [step, sdk_sendMsg]
  have hB2 :
      step { store := store, listening := listening, reads := 1,
             pending := [Request.get name (Then.changed name)],
             sent := (if name = "toggleDisplayHotkey" then
               [({ type := "settings.toggleDisplayHotkey" } : Message)] else []) ++
               [{ type := "settings.post-all", value := Value.obj store }] }
      = fulfill (Then.changed name) name (if hasOwnProperty store name then getProp store name
          else readProperty defaultSettings name) u := by
    rw [← hu]; simp [step]
  have hAchain := run_debugReads n (step (get_setting name Then.caller (idle store listening)))
    (by rw [hA]; simpa [fulfill] using ht5 (by simp [debugReads]))
  refine ⟨?_, ?_, ?_⟩
  · rw [run_succ, hAchain.2.2.2.1, hA]; simp [fulfill, ht3]
  · have hBchain := run_debugReads n (fulfill (Then.changed name) name
      (if hasOwnProperty store name then getProp store name
        else readProperty defaultSettings name) u)
      (by simpa [fulfill, sdk_sendMsg] using hu5 (by simp [debugReads]))
    rw [run_succ, run_succ, hB1, hB2, hBchain.2.2.1]
    simp [fulfill, sdk_sendMsg, hu2]
  · match n with
    | 0 => simp [run]
    | 1 => rw [run_succ, hB1]; simp [run]
    | m + 2 =>
      have hBchain := run_debugReads m (fulfill (Then.changed name) name
        (if hasOwnProperty store name then getProp store name
          else readProperty defaultSettings name) u)
        (by simpa [fulfill, sdk_sendMsg] using hu5 (by simp [debugReads]))
      rw [run_succ, run_succ, hB1, hB2, hBchain.2.1, hBchain.2.2.2.2.1]
      simp [fulfill, sdk_sendMsg, hu1, hu4]

/-- Witness of C8 as amended: the name `toggleDisplayHotkey` over empty storage. -/
theorem sdk_send_changed_setting_messages_witness :
    ∃ v : Value, ∀ n : Nat,
      (run (n + 1) (get_setting "toggleDisplayHotkey" Then.caller (idle [] false))).fulfilled
        = [("toggleDisplayHotkey", v)] ∧
      (run (n + 2) (sdk_send_changed_setting "toggleDisplayHotkey" (idle [] false))).sent
        = (if "toggleDisplayHotkey" = "toggleDisplayHotkey" then
            [({ type := "settings.toggleDisplayHotkey" } : Message)] else []) ++
          [{ type := "settings.post-all", value := Value.obj [] },
            { type := "settings.post", name := some "toggleDisplayHotkey", value := v }] ∧
      (run n (sdk_send_changed_setting "toggleDisplayHotkey" (idle [] false))).store = [] ∧
      (run n (sdk_send_changed_setting "toggleDisplayHotkey" (idle [] false))).writes = 0 :=
  sdk_send_changed_setting_messages [] false "toggleDisplayHotkey" (fun _ => rfl)

/-- Counterexample to C9: with the number `1` saved under `debug`, which is not `true`, a
`debug.log` message is logged; with the number `2` saved, which is as truthy, it is not. -/
theorem debug_log_gate_is_not_is_true :
    getProp [("debug", Value.num 1)] "debug" ≠ Value.bool true ∧
    (run 1 (sdk_replyHandler { type := "debug.log", value := Value.str "x" }
        (idle [("debug", Value.num 1)] false))).pending = [] ∧
    (run 1 (sdk_replyHandler { type := "debug.log", value := Value.str "x" }
        (idle [("debug", Value.num 1)] false))).console = [Value.str "x"] ∧
    (run 1 (sdk_replyHandler { type := "debug.log", value := Value.str "x" }
        (idle [("debug", Value.num 2)] false))).pending = [] ∧
    (run 1 (sdk_replyHandler { type := "debug.log", value := Value.str "x" }
        (idle [("debug", Value.num 2)] false))).console = [] := by
  refine ⟨by simp [getProp], ?_, ?_, ?_, ?_⟩ <;>
  simp [run, step, sdk_replyHandler, debug_log, get_setting, idle, storageGet, hasOwnProperty,
    getProp, get_setting_then, fulfill, looseEqTrue, readProperty]

/-- Claim C9 as amended: over any storage and for any value, however many requests are
served after a `debug.log` message was handled, the storage is unchanged, no write is served
and no message is sent; and when the `debug` entry is absent or a boolean, then once the read
is served the log holds the value if the stored entry is `true`, and nothing if it is `false`
or absent. -/
theorem debug_log_gated_by_debug_setting (store : Obj) (listening : Bool) (value : Value)
    (n : Nat) :
    ((run n (sdk_replyHandler { type := "debug.log", value := value }
        (idle store listening))).store = store ∧
      (run n (sdk_replyHandler { type := "debug.log", value := value }
        (idle store listening))).sent = [] ∧
      (run n (sdk_replyHandler { type := "debug.log", value := value }
        (idle store listening))).writes = 0) ∧
    ((hasOwnProperty store "debug" = true → ∃ b : Bool, getProp store "debug" = Value.bool b) →
      (getProp store "debug" = Value.bool true →
        (run (n + 1) (sdk_replyHandler { type := "debug.log", value := value }
          (idle store listening))).console = [value]) ∧
      (getProp store "debug" ≠ Value.bool true →
        (run (n + 1) (sdk_replyHandler { type := "debug.log", value := value }
          (idle store listening))).console = [])) := by
  have hh : sdk_replyHandler { type := "debug.log", value := value } (idle store listening)
      = { store := store, listening := listening,
          pending := [Request.get "debug" (Then.debug_log value)] } := by
    simp [sdk_replyHandler, debug_log, get_setting, idle]
  rw [hh]
  have hframe := run_debugReads n
    { store := store, listening := listening,
      pending := [Request.get "debug" (Then.debug_log value)] }
    (by simp [debugReads])
  refine ⟨⟨hframe.2.1, hframe.2.2.1, hframe.2.2.2.2.1⟩, fun hbool => ?_⟩
  rw [run_succ]
  have hstep :
      step { store := store, listening := listening,
             pending := [Request.get "debug" (Then.debug_log value)] }
      = get_setting_then "debug" (Then.debug_log value) (storageGet store "debug")
          { store := store, listening := listening, reads := 1 } := by
    simp [step]
  rw [hstep]
  cases hs : hasOwnProperty store "debug" with
  | true =>
    obtain ⟨b, hb⟩ := hbool hs
    rw [get_setting_then_saved _ _ _ _ hs (by decide), hb]
    cases b with
    | true =>
      refine ⟨fun _ => ?_, fun h => absurd rfl h⟩
      rw [run_of_pending_nil] <;> simp [fulfill, looseEqTrue]
    | false =>
      refine ⟨fun h => ?_, fun _ => ?_⟩
      · simp at h
      · rw [run_of_pending_nil] <;> simp [fulfill, looseEqTrue]
  | false =>
    rw [get_setting_then_default _ _ _ _ hs (by decide)]
    have hrun := run_debug_absent n
      (fulfill (Then.debug_log value) "debug" (getProp defaultSettings "debug")
        (debug_log (notSaved "debug") { store := store, listening := listening, reads := 1 }))
      (by simpa [fulfill, defaultSettings, getProp, looseEqTrue, debug_log, get_setting] using hs)
      (by simp [fulfill, defaultSettings, getProp, looseEqTrue, debug_log, get_setting,
        debugReads])
      (by simp [fulfill, defaultSettings, getProp, looseEqTrue, debug_log, get_setting])
    refine ⟨fun h => ?_, fun _ => ?_⟩
    · rw [getProp_of_not_own _ _ hs] at h
      simp at h
    · rw [hrun.2.1]
      simp [fulfill, defaultSettings, getProp, looseEqTrue, debug_log, get_setting]

/-- Witness of C9 as amended: with `true` stored under `debug` the value is logged. -/
theorem debug_log_gated_by_debug_setting_witness :
    (run 1 (sdk_replyHandler { type := "debug.log", value := Value.str "x" }
        (idle [("debug", Value.bool true)] false))).console = [Value.str "x"] :=
  ((debug_log_gated_by_debug_setting [("debug", Value.bool true)] false (Value.str "x") 0).2
    (fun _ => ⟨true, by simp [getProp]⟩)).1 (by simp [getProp])

/-- Claim C10, at the code: on empty storage the chain started by `get_setting(name)` never
comes to rest, whatever the name: after any number `n` of steps a request is still pending,
and `n` storage reads have been served. -/
theorem get_setting_chain_never_ends (name : String) (n : Nat) :
    (run n (get_setting name Then.caller (idle [] false))).pending ≠ [] ∧
      (run n (get_setting name Then.caller (idle [] false))).reads = n := by
  cases n with
  | zero => simp [run, get_setting, idle]
  | succ m =>
    rw [run_succ]
    have hstep : step (get_setting name Then.caller (idle [] false))
        = get_setting_then name Then.caller (storageGet [] name)
            { store := [], reads := 1 } := by
      simp [step, get_setting, idle]
    rw [hstep]
    cases hd : hasOwnProperty defaultSettings name with
    | true =>
      rw [get_setting_then_default [] name _ _ (hasOwnProperty_nil name) hd]
      have := run_debug_absent m
        (fulfill Then.caller name (getProp defaultSettings name)
          (debug_log (notSaved name) { store := [], reads := 1 }))
        rfl (by simp [fulfill, debug_log, get_setting, debugReads])
        (by simp [fulfill, debug_log, get_setting])
      refine ⟨this.1, ?_⟩
      rw [this.2.2]
      simp [fulfill, debug_log, get_setting, Nat.add_comm]
    | false =>
      rw [get_setting_then_unknown [] name _ _ (hasOwnProperty_nil name) hd]
      have := run_debug_absent m
        (fulfill Then.caller name (readProperty [] name)
          (debug_log (noDefault name) (debug_log (notSaved name) { store := [], reads := 1 })))
        rfl (by simp [fulfill, debug_log, get_setting, debugReads])
        (by simp [fulfill, debug_log, get_setting])
      refine ⟨this.1, ?_⟩
      rw [this.2.2]
      simp [fulfill, debug_log, get_setting, Nat.add_comm]

end VerticalTabs
